import Mathlib

/-!
Shallow embedding of the core state and operations of `src/main.py`
(a guild-coordination chat bot), together with theorems settling the
specification claims about it.

Conventions of the embedding:
* Discord user ids and channel/message ids are `Nat`.
* Python dicts keyed by `str(uid)` (`balances`, `ranking`) are total
  functions with default value `0`, matching `dict.get(k, 0)`.
* The `registrations` dict (lowercased nickname → user id) is
  `String → Option Nat`, matching `dict.get(k)` returning `None` when absent.
* Python truthiness of an `Optional[int]` (`if stored_id:`, `if other_id and ...`,
  `if state.log_channel_id:`) is modelled by `truthy`: `None` and `0` are falsy.
* Integer arithmetic uses `Int` with `Int.fdiv` for Python's floor division `//`.
-/

namespace Incitatus

/-- Python truthiness of an `Optional[int]` value: `None` and `0` are falsy. -/
def truthy : Option Nat → Bool
  | none => false
  | some n => n != 0

/-- The module-level mutable state of `main.py` that the claims are about:
`state.running`, `state.count` (current event id), `config.event_count`
(the persisted counter), `state.participants`, the `balances`, `ranking` and
`registrations` dicts, the `members_set` roster snapshot, and the two channel
bindings the modelled operations read (`event_log_channel`, `guild_channel`). -/
structure AppState where
  running : Bool
  count : Nat
  persistedCount : Nat
  participants : Finset Nat
  balances : Nat → Int
  ranking : Nat → Nat
  registrations : String → Option Nat
  members_set : Finset String
  logChannel : Option Nat
  guildChannel : Option Nat

/-- A convenience constructor for concrete states: empty ledgers and maps,
with the given control fields. -/
def mkState (running : Bool) (count persistedCount : Nat) (parts : Finset Nat)
    (logCh guildCh : Option Nat) : AppState :=
  { running := running, count := count, persistedCount := persistedCount,
    participants := parts, balances := fun _ => 0, ranking := fun _ => 0,
    registrations := fun _ => none, members_set := ∅,
    logChannel := logCh, guildChannel := guildCh }

/-! ### LootSplitter (`split_loot`, src/main.py lines 577–629) -/

/-- The error conditions of `split_loot`, in the order the code checks them:
no active event, the three argument-range re-checks, no participants, and
tax-plus-repair exceeding the total. -/
inductive SplitError
  | noEvent
  | badTotal
  | badTax
  | badRepair
  | noParticipants
  | overDeduction
deriving DecidableEq

/-- `guild_cut = total * tax // 100` (line 594). -/
def guildCutOf (total tax : Int) : Int := Int.fdiv (total * tax) 100

/-- `restante = total - guild_cut - repair` (line 595). -/
def restanteOf (total tax repair : Int) : Int := total - guildCutOf total tax - repair

/-- `per_head = restante // n` (line 600). -/
def perHeadOf (total tax repair : Int) (n : Nat) : Int :=
  Int.fdiv (restanteOf total tax repair) (n : Int)

/-- `sobra = restante - per_head * n` (line 601). -/
def sobraOf (total tax repair : Int) (n : Nat) : Int :=
  restanteOf total tax repair - perHeadOf total tax repair n * (n : Int)

/-- The successful output of `split_loot`: the effective guild cut after the
remainder `sobra` is folded in (line 603) and the per-participant payout. -/
structure SplitOk where
  guildCut : Int
  perHead : Int
deriving DecidableEq

/-- `split_loot` (lines 577–629): validates, computes the integer split, and on
success increments each participant's balance by `per_head`.  The returned
state differs from the input only in `balances`, and only on the success path
(the code mutates the `balances` dict only after every check has passed). -/
def split_loot (st : AppState) (total tax repair : Int) :
    AppState × Except SplitError SplitOk :=
  if st.running = false then (st, .error .noEvent)
  else if total ≤ 0 then (st, .error .badTotal)
  else if tax < 0 ∨ 100 < tax then (st, .error .badTax)
  else if repair < 0 then (st, .error .badRepair)
  else if st.participants.card = 0 then (st, .error .noParticipants)
  else if restanteOf total tax repair < 0 then (st, .error .overDeduction)
  else
    ({ st with balances := fun u =>
        if u ∈ st.participants
        then st.balances u + perHeadOf total tax repair st.participants.card
        else st.balances u },
     .ok ⟨guildCutOf total tax + sobraOf total tax repair st.participants.card,
          perHeadOf total tax repair st.participants.card⟩)

/-! ### EventStateMachine (`start_event` / `finish_event` / the participate
buttons, src/main.py lines 241–257, 423–434, 473–505) -/

/-- A message of the event-log channel history, as `fetch_last_event_number`
inspects it: whether the bot authored it, and the event number parsed from the
first attachment's filename by the pattern `evento_(\d+).txt` — `none` when the
message has no attachment or the filename does not match. -/
structure LogMsg where
  fromBot : Bool
  attachmentEvent : Option Nat

/-- The scan loop of `fetch_last_event_number` (lines 429–433): the first
bot-authored message whose attachment filename encodes an event number yields
that number; otherwise `0`. -/
def scan_history : List LogMsg → Nat
  | [] => 0
  | m :: rest =>
    match m.fromBot, m.attachmentEvent with
    | true, some k => k
    | _, _ => scan_history rest

/-- `fetch_last_event_number` (lines 423–434): `0` when no log channel is
configured or the channel object cannot be resolved, otherwise the result of
scanning the recent history. -/
def fetch_last_event_number (logChannel : Option Nat) (channelExists : Bool)
    (history : List LogMsg) : Nat :=
  match logChannel with
  | none => 0
  | some _ => if channelExists then scan_history history else 0

/-- `start_event` (lines 473–482): sets `state.count` to the log-derived
number plus one, persists it as `config.event_count`, marks the event running,
and resets the participant set. -/
def start_event (st : AppState) (channelExists : Bool) (history : List LogMsg) :
    AppState :=
  { st with
      count := fetch_last_event_number st.logChannel channelExists history + 1,
      persistedCount := fetch_last_event_number st.logChannel channelExists history + 1,
      running := true,
      participants := ∅ }

/-- The outcome of `finish_event`: the new state and whether a participant
roster artifact was sent to the log channel. -/
structure FinishResult where
  state : AppState
  artifact : Bool

/-- `finish_event` (lines 485–505): stops the event; when not cancelled, the
participant set is non-empty and a log channel id is set (Python truthiness),
it emits the roster artifact and increments each participant's ranking entry
by one; in every case the participant set is cleared afterwards. -/
def finish_event (st : AppState) (cancelled : Bool) : FinishResult :=
  if cancelled = false ∧ st.participants.Nonempty ∧ truthy st.logChannel = true then
    ⟨{ st with running := false,
               participants := ∅,
               ranking := fun u =>
                 if u ∈ st.participants then st.ranking u + 1 else st.ranking u },
     true⟩
  else ⟨{ st with running := false, participants := ∅ }, false⟩

/-- The `join_evt` button callback (lines 245–251): when no event is running it
only defers; otherwise it adds the user to the participant set. -/
def join_evt (st : AppState) (uid : Nat) : AppState :=
  if st.running = true then { st with participants := insert uid st.participants }
  else st

/-- The `leave_evt` button callback (lines 253–257): it discards the user from
the participant set unconditionally — the code has no `state.running` guard. -/
def leave_evt (st : AppState) (uid : Nat) : AppState :=
  { st with participants := st.participants.erase uid }

/-! ### SurfaceReconciler (`ensure_message`, src/main.py lines 263–279) -/

/-- A chat channel for `ensure_message`: the set of ids of messages that still
exist, and the id the platform will assign to the next message sent. -/
structure Channel where
  messages : Finset Nat
  nextId : Nat

/-- `channel.send(...)` : creates a message with a fresh id and returns it. -/
def send_message (ch : Channel) : Nat × Channel :=
  (ch.nextId, ⟨insert ch.nextId ch.messages, ch.nextId + 1⟩)

/-- `ensure_message` (lines 263–279): when a stored anchor id is truthy, fetch
it; if it still exists, edit it in place (content not modelled) and return the
stored id; when the fetch raises NotFound, or when there is no stored id, send
a new message and return its id. -/
def ensure_message (ch : Channel) (stored : Option Nat) : Nat × Channel :=
  if truthy stored = true then
    if stored.getD 0 ∈ ch.messages then (stored.getD 0, ch)
    else send_message ch
  else send_message ch

/-! ### RosterReconciliationLoop (`check_new_members`, src/main.py lines 508–568) -/

/-- A guild-roster record from the bulk fetch: name, kill fame, lifetime PvE
fame total. -/
structure Member where
  name : String
  killFame : Int
  pveFame : Int

/-- `{m["Name"] for m in data}` (line 536). -/
def member_names (data : List Member) : Finset String :=
  data.foldr (fun m s => insert m.name s) ∅

/-- The retry loop of lines 520–531: up to three attempts, first success wins,
`none` when all three fail. -/
def retry3 (a1 a2 a3 : Option (List Member)) : Option (List Member) :=
  match a1 with
  | some d => some d
  | none =>
    match a2 with
    | some d => some d
    | none => a3

/-- The outcome of one roster reconciliation round: the new state, the joined
and departed name sets (for which welcome/departure notifications are sent,
one per name), and whether a fetch succeeded. -/
structure RosterRound where
  state : AppState
  joined : Finset String
  departed : Finset String
  fetched : Bool

/-- `check_new_members` (lines 508–568): aborts untouched when the guild
channel is unconfigured, unresolvable, or all three fetch attempts fail; on a
successful fetch computes `joined = current − snapshot` and
`left = snapshot − current` and replaces the snapshot with `current`. -/
def check_new_members (st : AppState) (channelExists : Bool)
    (a1 a2 a3 : Option (List Member)) : RosterRound :=
  match st.guildChannel with
  | none => ⟨st, ∅, ∅, false⟩
  | some _ =>
    if channelExists = false then ⟨st, ∅, ∅, false⟩
    else
      match retry3 a1 a2 a3 with
      | none => ⟨st, ∅, ∅, false⟩
      | some data =>
        ⟨{ st with members_set := member_names data },
         member_names data \ st.members_set,
         st.members_set \ member_names data,
         true⟩

/-! ### Payment recording (`pay_cmd`, src/main.py lines 644–663) -/

/-- The failure conditions of `pay_cmd`: no pending balance, or a value larger
than the current balance. -/
inductive PayError
  | noBalance
  | insufficient
deriving DecidableEq

/-- `pay_cmd` (lines 644–663): reads the current balance; fails when it is
zero or smaller than the value; otherwise stores `current - value`. -/
def pay_cmd (st : AppState) (uid : Nat) (value : Int) :
    AppState × Except PayError Unit :=
  if st.balances uid = 0 then (st, .error .noBalance)
  else if st.balances uid < value then (st, .error .insufficient)
  else
    ({ st with balances := fun u =>
        if u = uid then st.balances uid - value else st.balances u },
     .ok ())

/-! ### RegistrationArbiter (`register_cmd`, src/main.py lines 673–749) -/

/-- The distinguishable outcomes of `register_cmd`, in check order: wrong
channel, user already carries the registered marker (the "Plebs" role),
nickname bound to another user, nickname already bound to this same user
(informational), player not found by the external lookup, player in no guild,
player's guild not whitelisted, role grant refused, and success. -/
inductive RegOutcome
  | wrongChannel
  | alreadyRegistered
  | nickConflict
  | nickSameUser
  | notFound
  | noGuild
  | guildNotAllowed
  | rolePermFail
  | registered
deriving DecidableEq

/-- Python's `str.lower()`: lowercases every character. -/
def pyLower (s : String) : String := ⟨s.data.map Char.toLower⟩

/-- Python's `str.strip()`: removes leading and trailing whitespace. -/
def pyStrip (s : String) : String :=
  ⟨((s.data.dropWhile Char.isWhitespace).reverse.dropWhile Char.isWhitespace).reverse⟩

/-- A player record from the external search, as `register_cmd` reads it:
`player.get("GuildId")` — `none` models a missing key, and the code also
treats an empty string as no guild (`if not gid`). -/
structure Player where
  name : String
  guildId : Option String

/-- The result of `register_cmd`: the new state, the outcome, and whether the
external player lookup was performed. -/
structure RegResult where
  state : AppState
  outcome : RegOutcome
  lookedUp : Bool

/-- `register_cmd` (lines 673–749).  Parameters beyond the state: the invoking
user id and nickname, the configured register channel and the channel the
command was invoked in, whether the "Plebs" role exists and whether the user
holds it, the external lookup result, the alliance whitelist, and whether the
role grant succeeds.  The display-name rewrite of lines 738–744 is non-fatal
and touches no modelled state, so it is not represented. -/
def register_cmd (st : AppState) (uid : Nat) (nickname : String)
    (registerChannel : Option Nat) (invokedChannel : Nat)
    (plebsExists userHasPlebs : Bool)
    (player : Option Player) (validGuildIds : Finset String)
    (addRoleOk : Bool) : RegResult :=
  if truthy registerChannel = true ∧ registerChannel ≠ some invokedChannel then
    ⟨st, .wrongChannel, false⟩
  else if plebsExists = true ∧ userHasPlebs = true then
    ⟨st, .alreadyRegistered, false⟩
  else if truthy (st.registrations (pyStrip (pyLower nickname))) = true ∧
          st.registrations (pyStrip (pyLower nickname)) ≠ some uid then
    ⟨st, .nickConflict, false⟩
  else if st.registrations (pyStrip (pyLower nickname)) = some uid then
    ⟨st, .nickSameUser, false⟩
  else
    match player with
    | none => ⟨st, .notFound, true⟩
    | some p =>
      match p.guildId with
      | none => ⟨st, .noGuild, true⟩
      | some gid =>
        if gid = "" then ⟨st, .noGuild, true⟩
        else if gid ∉ validGuildIds then ⟨st, .guildNotAllowed, true⟩
        else if plebsExists = true ∧ addRoleOk = false then ⟨st, .rolePermFail, true⟩
        else
          ⟨{ st with registrations := fun k =>
              if k = (pyStrip (pyLower nickname)) then some uid else st.registrations k },
           .registered, true⟩

/-- A concrete state with nickname `"foo"` bound to user `1`, for witnesses. -/
def regDemoState : AppState :=
  { mkState false 0 0 ∅ none none with
      registrations := fun k => if k = "foo" then some 1 else none }

/-- A concrete state where user `7` holds balance `5`, for witnesses. -/
def payDemoState : AppState :=
  { mkState false 0 0 ∅ none none with
      balances := fun u => if u = 7 then 5 else 0 }

/-! ### Theorems -/

/-- C1: for every valid input on which the loot split succeeds, the effective
guild cut (with the division remainder folded in) plus `perHead` times the
participant count plus `repair` equals `total` exactly, and `perHead` is
non-negative. -/
theorem split_loot_conservation (st : AppState) (total tax repair : Int)
    (h1 : 0 < total) (h2 : 0 ≤ tax) (h3 : tax ≤ 100) (h4 : 0 ≤ repair)
    (h5 : 0 < st.participants.card) (out : SplitOk)
    (hok : (split_loot st total tax repair).2 = .ok out) :
    out.guildCut + out.perHead * (st.participants.card : Int) + repair = total ∧
      0 ≤ out.perHead := by
  unfold split_loot at hok
  split at hok
  · cases hok
  · split at hok
    · cases hok
    · split at hok
      · cases hok
      · split at hok
        · cases hok
        · split at hok
          · cases hok
          · split at hok
            · cases hok
            · next hre =>
              push_neg at hre
              cases hok
              refine ⟨?_, Int.fdiv_nonneg hre (by positivity)⟩
              simp only [sobraOf, restanteOf]
              ring

/-- Witness for C1 at a concrete input: one participant, `total = 10`,
`tax = 0`, `repair = 1`, hence `perHead = 9` and effective guild cut `0`. -/
theorem split_loot_conservation_witness :
    (⟨0, 9⟩ : SplitOk).guildCut +
        (⟨0, 9⟩ : SplitOk).perHead * (((mkState true 1 1 {7} none none).participants.card : Nat) : Int) + 1 = 10 ∧
      (0 : Int) ≤ (⟨0, 9⟩ : SplitOk).perHead :=
  split_loot_conservation (mkState true 1 1 {7} none none) 10 0 1
    (by decide) (by decide) (by decide) (by decide) (by decide) ⟨0, 9⟩ rfl

/-- C4: under the argument ranges the command framework enforces and with an
event running, the split fails with the no-participants condition whenever the
participant count is zero; whenever `floor(total*tax/100) + repair > total`
the invocation fails, and specifically with the over-deduction condition
whenever additionally at least one participant exists (with zero participants
the earlier no-participants check fires first); and every failing invocation
leaves the whole state — in particular the balance ledger — unchanged. -/
theorem split_loot_failure_conditions (st : AppState) (total tax repair : Int)
    (hrun : st.running = true) (h1 : 0 < total) (h2 : 0 ≤ tax) (h3 : tax ≤ 100)
    (h4 : 0 ≤ repair) :
    (st.participants.card = 0 →
      (split_loot st total tax repair).2 = .error .noParticipants) ∧
    (total < guildCutOf total tax + repair →
      ∃ e, (split_loot st total tax repair).2 = .error e) ∧
    (st.participants.card ≠ 0 → total < guildCutOf total tax + repair →
      (split_loot st total tax repair).2 = .error .overDeduction) ∧
    (∀ e, (split_loot st total tax repair).2 = .error e →
      (split_loot st total tax repair).1 = st) := by
  have hA : ¬ (total ≤ 0) := not_le.mpr h1
  have hB : ¬ (tax < 0 ∨ 100 < tax) := by
    push_neg
    exact ⟨h2, h3⟩
  have hC : ¬ (repair < 0) := not_lt.mpr h4
  refine ⟨?_, ?_, ?_, ?_⟩
  · intro hn
    simp [split_loot, hrun, hA, hB, hC, hn]
  · intro hover
    have hres : restanteOf total tax repair < 0 := by
      unfold restanteOf
      omega
    by_cases hn : st.participants.card = 0
    · exact ⟨.noParticipants, by simp [split_loot, hrun, hA, hB, hC, hn]⟩
    · exact ⟨.overDeduction, by simp [split_loot, hrun, hA, hB, hC, hn, hres]⟩
  · intro hn hover
    have hres : restanteOf total tax repair < 0 := by
      unfold restanteOf
      omega
    simp [split_loot, hrun, hA, hB, hC, hn, hres]
  · intro e
    unfold split_loot
    repeat' split
    all_goals intro he
    all_goals first | rfl | simp at he

/-- Witness for C4 at a concrete input: one participant, `total = 10`,
`tax = 100`, `repair = 5`, so the guild cut is 10 and over-deduction fires. -/
theorem split_loot_failure_conditions_witness :
    (((mkState true 1 1 {7} none none).participants.card = 0 →
      (split_loot (mkState true 1 1 {7} none none) 10 100 5).2 =
        .error .noParticipants) ∧
    ((10 : Int) < guildCutOf 10 100 + 5 →
      ∃ e, (split_loot (mkState true 1 1 {7} none none) 10 100 5).2 = .error e) ∧
    ((mkState true 1 1 {7} none none).participants.card ≠ 0 →
      (10 : Int) < guildCutOf 10 100 + 5 →
      (split_loot (mkState true 1 1 {7} none none) 10 100 5).2 =
        .error .overDeduction) ∧
    (∀ e, (split_loot (mkState true 1 1 {7} none none) 10 100 5).2 = .error e →
      (split_loot (mkState true 1 1 {7} none none) 10 100 5).1 =
        mkState true 1 1 {7} none none)) :=
  split_loot_failure_conditions (mkState true 1 1 {7} none none) 10 100 5
    rfl (by decide) (by decide) (by decide) (by decide)

/-- C10: a successful loot split increases the balance of every participant by
exactly `perHead`, leaves the balance of every non-participant unchanged, and
leaves the ranking ledger, the registrations map, the roster snapshot, and the
event-machine fields unchanged. -/
theorem split_loot_frame (st : AppState) (total tax repair : Int) (out : SplitOk)
    (hok : (split_loot st total tax repair).2 = .ok out) :
    (∀ u ∈ st.participants,
      (split_loot st total tax repair).1.balances u = st.balances u + out.perHead) ∧
    (∀ u, u ∉ st.participants →
      (split_loot st total tax repair).1.balances u = st.balances u) ∧
    (split_loot st total tax repair).1.running = st.running ∧
    (split_loot st total tax repair).1.count = st.count ∧
    (split_loot st total tax repair).1.participants = st.participants ∧
    (split_loot st total tax repair).1.ranking = st.ranking ∧
    (split_loot st total tax repair).1.registrations = st.registrations ∧
    (split_loot st total tax repair).1.members_set = st.members_set := by
  set x := split_loot st total tax repair with hx
  clear_value x
  unfold split_loot at hx
  split at hx
  · rw [hx] at hok
    cases hok
  · split at hx
    · rw [hx] at hok
      cases hok
    · split at hx
      · rw [hx] at hok
        cases hok
      · split at hx
        · rw [hx] at hok
          cases hok
        · split at hx
          · rw [hx] at hok
            cases hok
          · split at hx
            · rw [hx] at hok
              cases hok
            · rw [hx] at hok ⊢
              simp only [Except.ok.injEq] at hok
              subst hok
              refine ⟨?_, ?_, rfl, rfl, rfl, rfl, rfl, rfl⟩
              · intro u hu
                simp [hu]
              · intro u hu
                simp [hu]

/-- Witness for C10 at a concrete input: participant `7`, `total = 10`,
`tax = 0`, `repair = 1`, hence `perHead = 9`. -/
theorem split_loot_frame_witness :
    ((∀ u ∈ (mkState true 1 1 {7} none none).participants,
      (split_loot (mkState true 1 1 {7} none none) 10 0 1).1.balances u =
        (mkState true 1 1 {7} none none).balances u + (⟨0, 9⟩ : SplitOk).perHead) ∧
    (∀ u, u ∉ (mkState true 1 1 {7} none none).participants →
      (split_loot (mkState true 1 1 {7} none none) 10 0 1).1.balances u =
        (mkState true 1 1 {7} none none).balances u) ∧
    (split_loot (mkState true 1 1 {7} none none) 10 0 1).1.running =
      (mkState true 1 1 {7} none none).running ∧
    (split_loot (mkState true 1 1 {7} none none) 10 0 1).1.count =
      (mkState true 1 1 {7} none none).count ∧
    (split_loot (mkState true 1 1 {7} none none) 10 0 1).1.participants =
      (mkState true 1 1 {7} none none).participants ∧
    (split_loot (mkState true 1 1 {7} none none) 10 0 1).1.ranking =
      (mkState true 1 1 {7} none none).ranking ∧
    (split_loot (mkState true 1 1 {7} none none) 10 0 1).1.registrations =
      (mkState true 1 1 {7} none none).registrations ∧
    (split_loot (mkState true 1 1 {7} none none) 10 0 1).1.members_set =
      (mkState true 1 1 {7} none none).members_set) :=
  split_loot_frame (mkState true 1 1 {7} none none) 10 0 1 ⟨0, 9⟩ rfl

/-- C2 (amended): on every Create transition the new event id equals the
log-derived number plus one — the persisted counter is overwritten without
being consulted — the new id is persisted immediately, the machine enters
Running with an empty participant set, and the id strictly exceeds the
previous one exactly when the log-derived number is at least the previous
id. -/
theorem start_event_spec (st : AppState) (channelExists : Bool)
    (history : List LogMsg) :
    (start_event st channelExists history).count =
      fetch_last_event_number st.logChannel channelExists history + 1 ∧
    (start_event st channelExists history).persistedCount =
      (start_event st channelExists history).count ∧
    (start_event st channelExists history).running = true ∧
    (start_event st channelExists history).participants = ∅ ∧
    (st.count ≤ fetch_last_event_number st.logChannel channelExists history →
      st.count < (start_event st channelExists history).count) := by
  refine ⟨rfl, rfl, rfl, rfl, ?_⟩
  intro hle
  simp only [start_event]
  omega

/-- Witness for C2 (amended) at a concrete input: one prior bot log message
encoding event 4, so the next event id is 5. -/
theorem start_event_spec_witness :
    ((start_event (mkState false 4 4 ∅ (some 9) none) true [⟨true, some 4⟩]).count =
      fetch_last_event_number (mkState false 4 4 ∅ (some 9) none).logChannel true
        [⟨true, some 4⟩] + 1 ∧
    (start_event (mkState false 4 4 ∅ (some 9) none) true [⟨true, some 4⟩]).persistedCount =
      (start_event (mkState false 4 4 ∅ (some 9) none) true [⟨true, some 4⟩]).count ∧
    (start_event (mkState false 4 4 ∅ (some 9) none) true [⟨true, some 4⟩]).running = true ∧
    (start_event (mkState false 4 4 ∅ (some 9) none) true [⟨true, some 4⟩]).participants = ∅ ∧
    ((mkState false 4 4 ∅ (some 9) none).count ≤
        fetch_last_event_number (mkState false 4 4 ∅ (some 9) none).logChannel true
          [⟨true, some 4⟩] →
      (mkState false 4 4 ∅ (some 9) none).count <
        (start_event (mkState false 4 4 ∅ (some 9) none) true [⟨true, some 4⟩]).count)) :=
  start_event_spec (mkState false 4 4 ∅ (some 9) none) true [⟨true, some 4⟩]

/-- C2 counterexample: in an Idle state with persisted counter 5 and no log
channel configured, Create computes event id 1, not
`max(lastObservedLogNumber, persistedCounter) + 1 = 6`; and a Create–End–Create
sequence starting from a fresh state with no log channel yields event id 1
twice, so the id does not strictly increase across successful Creates. -/
theorem start_event_counterexample :
    (start_event (mkState false 5 5 ∅ none none) false []).count ≠
      max (fetch_last_event_number (mkState false 5 5 ∅ none none).logChannel false [])
        (mkState false 5 5 ∅ none none).persistedCount + 1 ∧
    ¬ ((start_event (mkState false 0 0 ∅ none none) false []).count <
        (start_event
          (finish_event (start_event (mkState false 0 0 ∅ none none) false []) false).state
          false []).count) := by
  constructor
  · decide
  · have h1 : (start_event (mkState false 0 0 ∅ none none) false []).count = 1 := rfl
    have h2 : (start_event
        (finish_event (start_event (mkState false 0 0 ∅ none none) false []) false).state
        false []).count = 1 := rfl
    omega

/-- C7 (amended): for every user id, when the event machine is not Running the
Join button is a silently ignored no-op leaving all state unchanged, while the
Leave button always removes the user id from the participant set — the code has
no running guard on Leave — and therefore leaves the state unchanged only when
the user is not currently in the participant set (in particular whenever the
set is empty, which holds in every state reached without interleaving). -/
theorem join_leave_when_idle (st : AppState) (uid : Nat)
    (h : st.running = false) :
    join_evt st uid = st ∧
    (leave_evt st uid).participants = st.participants.erase uid ∧
    (uid ∉ st.participants → leave_evt st uid = st) := by
  refine ⟨?_, rfl, ?_⟩
  · simp [join_evt, h]
  · intro hu
    unfold leave_evt
    rw [Finset.erase_eq_of_not_mem hu]

/-- Witness for C7 (amended) at a concrete input: an idle state whose
participant set is empty and user id 42. -/
theorem join_leave_when_idle_witness :
    (join_evt (mkState false 0 0 ∅ none none) 42 = mkState false 0 0 ∅ none none ∧
    (leave_evt (mkState false 0 0 ∅ none none) 42).participants =
      (mkState false 0 0 ∅ none none).participants.erase 42 ∧
    (42 ∉ (mkState false 0 0 ∅ none none).participants →
      leave_evt (mkState false 0 0 ∅ none none) 42 = mkState false 0 0 ∅ none none)) :=
  join_leave_when_idle (mkState false 0 0 ∅ none none) 42 rfl

/-- C7 counterexample: with the machine not Running and participant set `{42}`,
the Leave button for user 42 changes the participant set — it is not a no-op,
because the code guards only Join with `state.running`. -/
theorem leave_when_idle_counterexample :
    (leave_evt (mkState false 0 0 {42} none none) 42).participants ≠
      (mkState false 0 0 {42} none none).participants := by
  decide

/-- C8: a non-cancelled End always transitions the machine to Idle and clears
the participant set; with a non-empty participant set and a truthy log channel
it emits exactly one roster artifact and increments each participant's ranking
entry by exactly one while leaving every other ranking entry unchanged; with
zero participants it leaves the whole ranking ledger unchanged and emits no
artifact. -/
theorem finish_event_end_spec (st : AppState) :
    (finish_event st false).state.running = false ∧
    (finish_event st false).state.participants = ∅ ∧
    (st.participants.Nonempty → truthy st.logChannel = true →
      (finish_event st false).artifact = true ∧
      (∀ u ∈ st.participants,
        (finish_event st false).state.ranking u = st.ranking u + 1) ∧
      (∀ u, u ∉ st.participants →
        (finish_event st false).state.ranking u = st.ranking u)) ∧
    (st.participants = ∅ →
      (finish_event st false).state.ranking = st.ranking ∧
      (finish_event st false).artifact = false) := by
  by_cases hlog : st.participants.Nonempty ∧ truthy st.logChannel = true
  · obtain ⟨hne, htr⟩ := hlog
    refine ⟨?_, ?_, ?_, ?_⟩
    · simp [finish_event, hne, htr]
    · simp [finish_event, hne, htr]
    · intro _ _
      refine ⟨by simp [finish_event, hne, htr], ?_, ?_⟩
      · intro u hu
        simp [finish_event, hne, htr, hu]
      · intro u hu
        simp [finish_event, hne, htr, hu]
    · intro hemp
      rw [hemp] at hne
      exact absurd hne (by simp)
  · refine ⟨?_, ?_, ?_, ?_⟩
    · simp [finish_event, hlog]
    · simp [finish_event, hlog]
    · intro hne htr
      exact absurd ⟨hne, htr⟩ hlog
    · intro _
      constructor
      · simp [finish_event, hlog]
      · simp [finish_event, hlog]

/-- Witness for C8 at a concrete input: participants `{7}` with log channel 9
configured (non-empty branch) — instantiating the theorem at that state. -/
theorem finish_event_end_spec_witness :
    ((finish_event (mkState true 3 3 {7} (some 9) none) false).state.running = false ∧
    (finish_event (mkState true 3 3 {7} (some 9) none) false).state.participants = ∅ ∧
    ((mkState true 3 3 {7} (some 9) none).participants.Nonempty →
      truthy (mkState true 3 3 {7} (some 9) none).logChannel = true →
      (finish_event (mkState true 3 3 {7} (some 9) none) false).artifact = true ∧
      (∀ u ∈ (mkState true 3 3 {7} (some 9) none).participants,
        (finish_event (mkState true 3 3 {7} (some 9) none) false).state.ranking u =
          (mkState true 3 3 {7} (some 9) none).ranking u + 1) ∧
      (∀ u, u ∉ (mkState true 3 3 {7} (some 9) none).participants →
        (finish_event (mkState true 3 3 {7} (some 9) none) false).state.ranking u =
          (mkState true 3 3 {7} (some 9) none).ranking u)) ∧
    ((mkState true 3 3 {7} (some 9) none).participants = ∅ →
      (finish_event (mkState true 3 3 {7} (some 9) none) false).state.ranking =
        (mkState true 3 3 {7} (some 9) none).ranking ∧
      (finish_event (mkState true 3 3 {7} (some 9) none) false).artifact = false)) :=
  finish_event_end_spec (mkState true 3 3 {7} (some 9) none)

/-- C3: a roster reconciliation round on which all three fetch attempts fail
leaves the entire state — in particular the roster snapshot — exactly as it
was; a round whose fetch succeeds with member list `data` (given the guild
channel is configured and resolvable) computes the joined set as the fetched
names minus the snapshot, the departed set as the snapshot minus the fetched
names, and replaces the snapshot by the fetched names. -/
theorem check_new_members_spec (st : AppState) (channelExists : Bool)
    (a1 a2 a3 : Option (List Member)) :
    (retry3 a1 a2 a3 = none →
      (check_new_members st channelExists a1 a2 a3).state = st) ∧
    (∀ data, retry3 a1 a2 a3 = some data → st.guildChannel ≠ none →
      channelExists = true →
      (check_new_members st channelExists a1 a2 a3).joined =
        member_names data \ st.members_set ∧
      (check_new_members st channelExists a1 a2 a3).departed =
        st.members_set \ member_names data ∧
      (check_new_members st channelExists a1 a2 a3).state.members_set =
        member_names data ∧
      (check_new_members st channelExists a1 a2 a3).state.balances = st.balances ∧
      (check_new_members st channelExists a1 a2 a3).state.ranking = st.ranking ∧
      (check_new_members st channelExists a1 a2 a3).state.registrations =
        st.registrations) := by
  constructor
  · intro hfail
    unfold check_new_members
    match hg : st.guildChannel with
    | none => rfl
    | some c =>
      cases hce : channelExists
      · simp
      · simp only [Bool.true_eq_false, if_false]
        rw [hfail]
  · intro data hdata hg hce
    obtain ⟨c, hc⟩ : ∃ c, st.guildChannel = some c := by
      cases hgc : st.guildChannel
      · exact absurd hgc hg
      · exact ⟨_, rfl⟩
    subst hce
    simp [check_new_members, hc, hdata]

/-- Witness for C3, the example of the spec: snapshot `{A, B, C}` and a first
fetch attempt returning `{B, C, D}` yield joined `{D}`, departed `{A}`, and
new snapshot `{B, C, D}`. -/
theorem check_new_members_spec_witness :
    ((retry3 (some [⟨"B", 0, 0⟩, ⟨"C", 0, 0⟩, ⟨"D", 0, 0⟩]) none none = none →
      (check_new_members
          { mkState false 0 0 ∅ none (some 5) with members_set := {"A", "B", "C"} } true
          (some [⟨"B", 0, 0⟩, ⟨"C", 0, 0⟩, ⟨"D", 0, 0⟩]) none none).state =
        { mkState false 0 0 ∅ none (some 5) with members_set := {"A", "B", "C"} }) ∧
    (∀ data,
      retry3 (some [⟨"B", 0, 0⟩, ⟨"C", 0, 0⟩, ⟨"D", 0, 0⟩]) none none = some data →
      ({ mkState false 0 0 ∅ none (some 5) with
          members_set := ({"A", "B", "C"} : Finset String) } : AppState).guildChannel ≠ none →
      true = true →
      (check_new_members
          { mkState false 0 0 ∅ none (some 5) with members_set := {"A", "B", "C"} } true
          (some [⟨"B", 0, 0⟩, ⟨"C", 0, 0⟩, ⟨"D", 0, 0⟩]) none none).joined =
        member_names data \
          ({ mkState false 0 0 ∅ none (some 5) with
              members_set := ({"A", "B", "C"} : Finset String) } : AppState).members_set ∧
      (check_new_members
          { mkState false 0 0 ∅ none (some 5) with members_set := {"A", "B", "C"} } true
          (some [⟨"B", 0, 0⟩, ⟨"C", 0, 0⟩, ⟨"D", 0, 0⟩]) none none).departed =
        ({ mkState false 0 0 ∅ none (some 5) with
            members_set := ({"A", "B", "C"} : Finset String) } : AppState).members_set \
          member_names data ∧
      (check_new_members
          { mkState false 0 0 ∅ none (some 5) with members_set := {"A", "B", "C"} } true
          (some [⟨"B", 0, 0⟩, ⟨"C", 0, 0⟩, ⟨"D", 0, 0⟩]) none none).state.members_set =
        member_names data ∧
      (check_new_members
          { mkState false 0 0 ∅ none (some 5) with members_set := {"A", "B", "C"} } true
          (some [⟨"B", 0, 0⟩, ⟨"C", 0, 0⟩, ⟨"D", 0, 0⟩]) none none).state.balances =
        ({ mkState false 0 0 ∅ none (some 5) with
            members_set := ({"A", "B", "C"} : Finset String) } : AppState).balances ∧
      (check_new_members
          { mkState false 0 0 ∅ none (some 5) with members_set := {"A", "B", "C"} } true
          (some [⟨"B", 0, 0⟩, ⟨"C", 0, 0⟩, ⟨"D", 0, 0⟩]) none none).state.ranking =
        ({ mkState false 0 0 ∅ none (some 5) with
            members_set := ({"A", "B", "C"} : Finset String) } : AppState).ranking ∧
      (check_new_members
          { mkState false 0 0 ∅ none (some 5) with members_set := {"A", "B", "C"} } true
          (some [⟨"B", 0, 0⟩, ⟨"C", 0, 0⟩, ⟨"D", 0, 0⟩]) none none).state.registrations =
        ({ mkState false 0 0 ∅ none (some 5) with
            members_set := ({"A", "B", "C"} : Finset String) } : AppState).registrations)) :=
  check_new_members_spec
    { mkState false 0 0 ∅ none (some 5) with members_set := {"A", "B", "C"} } true
    (some [⟨"B", 0, 0⟩, ⟨"C", 0, 0⟩, ⟨"D", 0, 0⟩]) none none

/-- C5: with a stored anchor id whose message still exists, `ensure_message`
edits that message and returns the stored id with the channel's message set
unchanged, and a second invocation under the same anchor behaves identically —
no duplicate message is ever created; with a stored anchor id whose message
was deleted, it sends exactly one replacement message (the message count grows
by exactly one) and returns the fresh id for the caller to persist. -/
theorem ensure_message_spec (ch : Channel) (id : Nat) (hnz : id ≠ 0)
    (hfresh : ch.nextId ∉ ch.messages) :
    (id ∈ ch.messages →
      ensure_message ch (some id) = (id, ch) ∧
      ensure_message (ensure_message ch (some id)).2 (some id) = (id, ch)) ∧
    (id ∉ ch.messages →
      (ensure_message ch (some id)).1 = ch.nextId ∧
      (ensure_message ch (some id)).2.messages = insert ch.nextId ch.messages ∧
      (ensure_message ch (some id)).2.messages.card = ch.messages.card + 1) := by
  have htr : truthy (some id) = true := by
    simp [truthy, hnz]
  constructor
  · intro hmem
    have h1 : ensure_message ch (some id) = (id, ch) := by
      simp [ensure_message, htr, hmem]
    exact ⟨h1, by rw [h1]; exact h1⟩
  · intro hmem
    refine ⟨?_, ?_, ?_⟩
    · simp [ensure_message, htr, hmem, send_message]
    · simp [ensure_message, htr, hmem, send_message]
    · have h1 : ensure_message ch (some id) = send_message ch := by
        simp [ensure_message, htr, hmem]
      rw [h1, send_message]
      simp [Finset.card_insert_of_not_mem hfresh]

/-- Witness for C5 at a concrete input: a channel holding messages `{3, 4}`
with next fresh id `5`, anchor id `3`. -/
theorem ensure_message_spec_witness :
    ((3 ∈ (⟨{3, 4}, 5⟩ : Channel).messages →
      ensure_message ⟨{3, 4}, 5⟩ (some 3) = (3, ⟨{3, 4}, 5⟩) ∧
      ensure_message (ensure_message ⟨{3, 4}, 5⟩ (some 3)).2 (some 3) =
        (3, ⟨{3, 4}, 5⟩)) ∧
    (3 ∉ (⟨{3, 4}, 5⟩ : Channel).messages →
      (ensure_message ⟨{3, 4}, 5⟩ (some 3)).1 = (⟨{3, 4}, 5⟩ : Channel).nextId ∧
      (ensure_message ⟨{3, 4}, 5⟩ (some 3)).2.messages =
        insert (⟨{3, 4}, 5⟩ : Channel).nextId (⟨{3, 4}, 5⟩ : Channel).messages ∧
      (ensure_message ⟨{3, 4}, 5⟩ (some 3)).2.messages.card =
        (⟨{3, 4}, 5⟩ : Channel).messages.card + 1)) :=
  ensure_message_spec ⟨{3, 4}, 5⟩ 3 (by decide) (by decide)

/-- C6: whenever the channel check passes, the caller does not already carry
the registered marker, and the lowercased (and stripped) nickname is already
bound in the registrations map to a non-zero user id, `register_cmd` fails
with the conflict outcome if the binding belongs to a different user and
succeeds idempotently with the informational already-yours outcome if it
belongs to the caller — in both cases the returned state is exactly the input
state (the registrations map is unchanged) and the external lookup is not
performed. -/
theorem register_bound_nickname (st : AppState) (uid : Nat) (nickname : String)
    (registerChannel : Option Nat) (invokedChannel : Nat)
    (plebsExists userHasPlebs : Bool) (player : Option Player)
    (validGuildIds : Finset String) (addRoleOk : Bool) (other : Nat)
    (hch : ¬ (truthy registerChannel = true ∧ registerChannel ≠ some invokedChannel))
    (hmk : ¬ (plebsExists = true ∧ userHasPlebs = true))
    (hb : st.registrations (pyStrip (pyLower nickname)) = some other) (hnz : other ≠ 0) :
    (other ≠ uid →
      register_cmd st uid nickname registerChannel invokedChannel plebsExists
          userHasPlebs player validGuildIds addRoleOk =
        ⟨st, .nickConflict, false⟩) ∧
    (other = uid →
      register_cmd st uid nickname registerChannel invokedChannel plebsExists
          userHasPlebs player validGuildIds addRoleOk =
        ⟨st, .nickSameUser, false⟩) := by
  have htr : truthy (st.registrations (pyStrip (pyLower nickname))) = true := by
    rw [hb]
    simp [truthy, hnz]
  constructor
  · intro hne
    have hcond : truthy (st.registrations (pyStrip (pyLower nickname))) = true ∧
        st.registrations (pyStrip (pyLower nickname)) ≠ some uid := by
      refine ⟨htr, ?_⟩
      rw [hb]
      simp [hne]
    simp [register_cmd, hch, hmk, hcond]
  · intro heq
    subst heq
    have hcond : ¬ (truthy (st.registrations (pyStrip (pyLower nickname))) = true ∧
        st.registrations (pyStrip (pyLower nickname)) ≠ some other) := by
      intro hc
      exact hc.2 hb
    simp [register_cmd, hch, hmk, hcond, hb]

/-- Witness for C6, the example of the spec: `"foo"` is bound to user 1 in
`regDemoState`; user 2 registering `"Foo"` hits the conflict branch, and the
idempotent branch is stated for the binding's owner. -/
theorem register_bound_nickname_witness :
    (((1 : Nat) ≠ 2 →
      register_cmd regDemoState 2 "Foo" (some 10) 10 true false none ∅ true =
        ⟨regDemoState, .nickConflict, false⟩) ∧
    ((1 : Nat) = 2 →
      register_cmd regDemoState 2 "Foo" (some 10) 10 true false none ∅ true =
        ⟨regDemoState, .nickSameUser, false⟩)) :=
  register_bound_nickname regDemoState 2 "Foo" (some 10) 10 true false none ∅ true 1
    (by decide) (by decide) (by decide) (by decide)

/-- C9: for every payment `pay(user, value)` with `value ≥ 1`, the operation
fails and leaves the state — in particular the balance ledger — unchanged
whenever the user's current balance is zero or the value exceeds it; otherwise
it succeeds, sets the user's balance to `current − value`, touches no other
balance, and preserves non-negativity of every balance. -/
theorem pay_cmd_spec (st : AppState) (uid : Nat) (value : Int)
    (hv : 1 ≤ value) :
    (st.balances uid = 0 ∨ st.balances uid < value →
      (pay_cmd st uid value).1 = st ∧
      ∃ e, (pay_cmd st uid value).2 = .error e) ∧
    (st.balances uid ≠ 0 → value ≤ st.balances uid →
      (pay_cmd st uid value).2 = .ok () ∧
      (pay_cmd st uid value).1.balances uid = st.balances uid - value ∧
      (∀ u, u ≠ uid → (pay_cmd st uid value).1.balances u = st.balances u) ∧
      ((∀ u, 0 ≤ st.balances u) → ∀ u, 0 ≤ (pay_cmd st uid value).1.balances u)) := by
  constructor
  · intro hfail
    rcases hfail with hz | hlt
    · exact ⟨by simp [pay_cmd, hz], .noBalance, by simp [pay_cmd, hz]⟩
    · by_cases hz : st.balances uid = 0
      · exact ⟨by simp [pay_cmd, hz], .noBalance, by simp [pay_cmd, hz]⟩
      · exact ⟨by simp [pay_cmd, hz, hlt], .insufficient, by simp [pay_cmd, hz, hlt]⟩
  · intro hz hle
    have hnlt : ¬ (st.balances uid < value) := not_lt.mpr hle
    refine ⟨by simp [pay_cmd, hz, hnlt], by simp [pay_cmd, hz, hnlt], ?_, ?_⟩
    · intro u hu
      simp [pay_cmd, hz, hnlt, hu]
    · intro hpos u
      by_cases hu : u = uid
      · subst hu
        simp only [pay_cmd, hz, if_false, hnlt]
        simp
        omega
      · simp [pay_cmd, hz, hnlt, hu]
        exact hpos u

/-- Witness for C9 at a concrete input: a state where user 7 holds balance 5
and a payment of 3 is recorded. -/
theorem pay_cmd_spec_witness :
    ((payDemoState.balances 7 = 0 ∨ payDemoState.balances 7 < 3 →
      (pay_cmd payDemoState 7 3).1 = payDemoState ∧
      ∃ e, (pay_cmd payDemoState 7 3).2 = .error e) ∧
    (payDemoState.balances 7 ≠ 0 → (3 : Int) ≤ payDemoState.balances 7 →
      (pay_cmd payDemoState 7 3).2 = .ok () ∧
      (pay_cmd payDemoState 7 3).1.balances 7 = payDemoState.balances 7 - 3 ∧
      (∀ u, u ≠ 7 → (pay_cmd payDemoState 7 3).1.balances u = payDemoState.balances u) ∧
      ((∀ u, 0 ≤ payDemoState.balances u) →
        ∀ u, 0 ≤ (pay_cmd payDemoState 7 3).1.balances u))) :=
  pay_cmd_spec payDemoState 7 3 (by decide)

end Incitatus
